import Mathlib

/-!
Shallow embedding of the e-commerce backend's core logic:
the catalog listing handler `getProducts` (query building, filtering,
sorting, pagination, page metadata) and the cart handlers `addToCart`
and `deleteCart`, translated from the JavaScript source
(`controllers/products` and `src/controllers/login.js`).

JavaScript numbers that hold integer ids and counts are modelled as `Int`;
prices (parsed with `parseFloat`, compared exactly for the inputs in play)
are modelled as `Rat`.  `parseInt`/`parseFloat` results are `Option`
values, `none` standing for `NaN`.  Query-string parameters are
`Option String`, `none` standing for an absent key.
-/

namespace Ecom

/-- Numeric value of a list of decimal digit characters. -/
def digitsVal (l : List Char) : Nat :=
  l.foldl (fun a c => a * 10 + (c.toNat - 48)) 0

/-- JS whitespace test used by `parseInt`/`parseFloat` before the number. -/
def isJsSpace (c : Char) : Bool :=
  c = ' ' || c = '\t' || c = '\n' || c = '\r'

/-- Core of JS `parseInt(s, 10)` on the whitespace-stripped character list:
an optional sign followed by the longest digit prefix; `none` models `NaN`
(no digits at all). -/
def jsParseIntCore (l : List Char) : Option Int :=
  let sr : Int × List Char :=
    match l with
    | '-' :: r => (-1, r)
    | '+' :: r => (1, r)
    | r => (1, r)
  let ds := sr.2.takeWhile Char.isDigit
  if ds.isEmpty then none else some (sr.1 * (digitsVal ds : Int))

/-- JS `parseInt(s, 10)`: skip leading whitespace, then sign and digits;
`none` models `NaN`. -/
def jsParseInt (s : String) : Option Int :=
  jsParseIntCore (s.data.dropWhile isJsSpace)

/-- Fractional value of a digit list `ds` read after a decimal point. -/
def fracVal (ds : List Char) : Rat :=
  (digitsVal ds : Rat) / ((10 : Rat) ^ ds.length)

/-- A JS number as `parseFloat` produces it: `NaN`, a signed infinity
(`parseFloat("Infinity")`), or a finite value (exact rational here). -/
inductive JsFloat where
  | nan
  | inf (neg : Bool)
  | num (q : Rat)
deriving DecidableEq, Repr

/-- Exponent contributed by the characters following a mantissa: `(e|E)`,
an optional sign and at least one digit; anything else contributes
nothing (`parseFloat("1e")` is 1, the `e` being dropped from the longest
valid prefix). -/
def jsParseExp (l : List Char) : Int :=
  match l with
  | c :: rest =>
      if c = 'e' ∨ c = 'E' then
        match rest with
        | '-' :: ds =>
            let d := ds.takeWhile Char.isDigit
            if d.isEmpty then 0 else -(digitsVal d : Int)
        | '+' :: ds =>
            let d := ds.takeWhile Char.isDigit
            if d.isEmpty then 0 else (digitsVal d : Int)
        | ds =>
            let d := ds.takeWhile Char.isDigit
            if d.isEmpty then 0 else (digitsVal d : Int)
      else 0
  | [] => 0

/-- `m * 10 ^ e` for an integer exponent. -/
def expVal (m : Rat) (e : Int) : Rat :=
  if 0 ≤ e then m * (10 : Rat) ^ e.toNat else m / (10 : Rat) ^ (-e).toNat

/-- Apply the parsed sign. -/
def signApply (neg : Bool) (x : Rat) : Rat := if neg then -x else x

/-- Core of JS `parseFloat` on the whitespace-stripped character list:
sign, then the literal `Infinity`, or digits with an optional `.` fraction
and an optional exponent; `JsFloat.nan` when no digits are found before or
after the point. -/
def jsParseFloatCore (l : List Char) : JsFloat :=
  let sn : Bool × List Char :=
    match l with
    | '-' :: r => (true, r)
    | '+' :: r => (false, r)
    | r => (false, r)
  if sn.2.take 8 = ['I', 'n', 'f', 'i', 'n', 'i', 't', 'y'] then .inf sn.1
  else
    let ds := sn.2.takeWhile Char.isDigit
    let rest := sn.2.dropWhile Char.isDigit
    match rest with
    | '.' :: r2 =>
        let fs := r2.takeWhile Char.isDigit
        if ds.isEmpty && fs.isEmpty then .nan
        else
          .num (signApply sn.1
            (expVal ((digitsVal ds : Rat) + fracVal fs)
              (jsParseExp (r2.dropWhile Char.isDigit))))
    | _ =>
        if ds.isEmpty then .nan
        else .num (signApply sn.1 (expVal (digitsVal ds : Rat) (jsParseExp rest)))

/-- JS `parseFloat(s)`: skip leading whitespace then parse a decimal. -/
def jsParseFloat (s : String) : JsFloat :=
  jsParseFloatCore (s.data.dropWhile isJsSpace)

/-- A query-string parameter as the handler's truthiness test sees it:
an absent key or the empty string is falsy (`none`), anything else is the
string itself. -/
def optParam : Option String → Option String
  | none => none
  | some s => if s = "" then none else some s

/-- `parseInt(v, 10) || d`: the destructuring default `d` when the key is
absent, the default again when the parse is `NaN` or yields `0` (JS `||`
treats `0` as falsy), otherwise the parsed value. -/
def parseIntOr (o : Option String) (d : Int) : Int :=
  match o with
  | none => d
  | some s =>
      match jsParseInt s with
      | none => d
      | some v => if v = 0 then d else v

/-- Catalog record, with the fields `getProducts` filters and sorts on
(`brandsId`, `Colors`, `Size` follow the source's column names). -/
structure Product where
  id : Int
  name : String
  price : Rat
  discount : Int
  categoryId : Int
  subcategoryId : Int
  brandsId : Int
  Colors : List String
  Size : List String
deriving DecidableEq, Repr

/-- The price clause of the Prisma `where` object, exactly as the three
branches of the source build it; each bound holds whatever `parseFloat`
produced, `JsFloat.nan` included. -/
inductive PriceClause where
  | both (gte lte : JsFloat)
  | geOnly (gte : JsFloat)
  | leOnly (lte : JsFloat)
deriving DecidableEq, Repr

/-- The discount clause: `{ gt: 0 }` for the literal string "true",
`0` for the literal string "false". -/
inductive DiscountClause where
  | gtZero
  | eqZero
deriving DecidableEq, Repr

/-- The dynamically built Prisma `where` object of `getProducts`.  An outer
`none` means the clause was never added; `some none` in a numeric clause is
a clause added with `NaN`. -/
structure WhereSpec where
  categoryId : Option (Option Int)
  subcategoryId : Option (Option Int)
  brandsId : Option (Option Int)
  Colors : Option (List String)
  Size : Option (List String)
  price : Option PriceClause
  discount : Option DiscountClause
deriving DecidableEq, Repr

/-- Raw query string of `GET /products/all`. -/
structure RawQuery where
  page : Option String := none
  limit : Option String := none
  sortBy : Option String := none
  sortOrder : Option String := none
  categoryId : Option String := none
  subcategoryId : Option String := none
  brandId : Option String := none
  color : Option String := none
  size : Option String := none
  minPrice : Option String := none
  maxPrice : Option String := none
  discount : Option String := none
deriving Repr

/-- `color.split(',').map(c => c.trim().toUpperCase())`. -/
def splitList (s : String) : List String :=
  (s.splitOn ",").map (fun c => c.trim.toUpper)

/-- The `where` object built by `getProducts` from the raw query, clause by
clause as in the source: truthy numeric parameters are `parseInt`ed
(`brandId` lands in column `brandsId`), truthy `color`/`size` become
upper-cased lists for `hasSome`, the price clause takes one of three
shapes, and `discount` reacts to the literals "true"/"false" only. -/
def buildWhere (q : RawQuery) : WhereSpec :=
  { categoryId := (optParam q.categoryId).map jsParseInt
    subcategoryId := (optParam q.subcategoryId).map jsParseInt
    brandsId := (optParam q.brandId).map jsParseInt
    Colors := (optParam q.color).map splitList
    Size := (optParam q.size).map splitList
    price :=
      match optParam q.minPrice, optParam q.maxPrice with
      | some mn, some mx => some (.both (jsParseFloat mn) (jsParseFloat mx))
      | some mn, none => some (.geOnly (jsParseFloat mn))
      | none, some mx => some (.leOnly (jsParseFloat mx))
      | none, none => none
    discount :=
      if q.discount = some "true" then some .gtZero
      else if q.discount = some "false" then some .eqZero
      else none }

/-- Equality clause on an `Int` column: absent matches everything, a `NaN`
value matches nothing. -/
def matchIntClause : Option (Option Int) → Int → Bool
  | none, _ => true
  | some none, _ => false
  | some (some v), x => x == v

/-- `gte` bound: a `NaN` bound matches nothing, `-Infinity` everything,
`+Infinity` nothing. -/
def matchLower : JsFloat → Rat → Bool
  | .nan, _ => false
  | .inf neg, _ => neg
  | .num b, x => decide (b ≤ x)

/-- `lte` bound: a `NaN` bound matches nothing, `+Infinity` everything,
`-Infinity` nothing. -/
def matchUpper : JsFloat → Rat → Bool
  | .nan, _ => false
  | .inf neg, _ => !neg
  | .num b, x => decide (x ≤ b)

/-- The price clause as a predicate on a product's price. -/
def matchPrice : Option PriceClause → Rat → Bool
  | none, _ => true
  | some (.both g l), x => matchLower g x && matchUpper l x
  | some (.geOnly g), x => matchLower g x
  | some (.leOnly l), x => matchUpper l x

/-- Prisma `hasSome`: the column's list holds at least one wanted value. -/
def matchHasSome : Option (List String) → List String → Bool
  | none, _ => true
  | some want, xs => want.any (fun c => xs.contains c)

/-- The discount clause as a predicate. -/
def matchDiscount : Option DiscountClause → Int → Bool
  | none, _ => true
  | some .gtZero, d => decide (0 < d)
  | some .eqZero, d => d == 0

/-- A product satisfies every clause of the `where` object. -/
def matchesWhere (w : WhereSpec) (p : Product) : Bool :=
  matchIntClause w.categoryId p.categoryId &&
  matchIntClause w.subcategoryId p.subcategoryId &&
  matchIntClause w.brandsId p.brandsId &&
  matchHasSome w.Colors p.Colors &&
  matchHasSome w.Size p.Size &&
  matchPrice w.price p.price &&
  matchDiscount w.discount p.discount

/-- Sort key for `orderBy { [sortBy]: ... }` on the numeric columns the
catalog exposes; `price` is both the handler's default and the only key the
requests studied here exercise. -/
def productKey (sortBy : String) (p : Product) : Rat :=
  if sortBy = "discount" then (p.discount : Rat)
  else if sortBy = "id" then (p.id : Rat)
  else if sortBy = "categoryId" then (p.categoryId : Rat)
  else if sortBy = "subcategoryId" then (p.subcategoryId : Rat)
  else if sortBy = "brandsId" then (p.brandsId : Rat)
  else p.price

/-- Comparator from `sortBy` and `sortOrder`: ascending exactly when the
raw `sortOrder` is the literal "asc", descending otherwise. -/
def productLe (sortBy sortOrder : String) (a b : Product) : Bool :=
  if sortOrder = "asc" then decide (productKey sortBy a ≤ productKey sortBy b)
  else decide (productKey sortBy b ≤ productKey sortBy a)

/-- Insert into a list sorted by `le` (stable: equal keys keep order). -/
def insertLe (le : Product → Product → Bool) (a : Product) :
    List Product → List Product
  | [] => [a]
  | b :: l => if le a b then a :: b :: l else b :: insertLe le a l

/-- Insertion sort modelling the store's `orderBy`. -/
def sortProducts (sortBy sortOrder : String) (l : List Product) :
    List Product :=
  l.foldr (insertLe (productLe sortBy sortOrder)) []

/-- Prisma `skip`; a negative request is clamped at the list's head. -/
def intDrop (n : Int) (l : List Product) : List Product := l.drop n.toNat

/-- Prisma `take`; a negative request yields nothing here. -/
def intTake (n : Int) (l : List Product) : List Product := l.take n.toNat

/-- Page metadata of the listing response. -/
structure PageMeta where
  totalProducts : Nat
  totalPages : Int
  currentPage : Int
  pageSize : Int
deriving DecidableEq, Repr

/-- Listing response body. -/
structure ListResult where
  data : List Product
  meta : PageMeta
deriving Repr

/-- `getProducts` (success path): defaults and `parseInt(..) || d` for the
page pair, the `where` object, the ordered page window
(`skip = (pageNumber-1)*pageSize`, `take = pageSize`), a count over the
same `where`, and `Math.ceil(totalProducts / pageSize)` for `totalPages`. -/
def getProducts (store : List Product) (q : RawQuery) : ListResult :=
  let pageNumber := parseIntOr q.page 1
  let pageSize := parseIntOr q.limit 10
  let w := buildWhere q
  let matching := store.filter (matchesWhere w)
  let sorted := sortProducts (q.sortBy.getD "price") (q.sortOrder.getD "asc") matching
  let data := intTake pageSize (intDrop ((pageNumber - 1) * pageSize) sorted)
  let totalProducts := matching.length
  { data := data
    meta :=
      { totalProducts := totalProducts
        totalPages := Int.ceil ((totalProducts : Rat) / (pageSize : Rat))
        currentPage := pageNumber
        pageSize := pageSize } }

/-- A stored user; only the fields the cart handlers touch. -/
structure User where
  id : Int
  username : String
deriving DecidableEq, Repr

/-- One cart row (`prisma.cart`): unique `id`, owner, product and the
`count` column holding the quantity. -/
structure CartLine where
  id : Int
  userId : Int
  productId : Int
  count : Int
deriving DecidableEq, Repr

/-- A decoded bearer token as `jwt.verify` sees it: the embedded `userid`
claim, and whether signature/expiry verification succeeds ( `jwt.verify`
throws on a malformed, tampered or expired token). -/
structure Token where
  userid : Int
  wellFormed : Bool
deriving DecidableEq, Repr

/-- The shared persistent state the cart handlers read and write:
user table, product catalog, cart table, plus the next fresh cart-row id
the store would assign on insert. -/
structure Store where
  users : List User
  products : List Product
  cart : List CartLine
  nextCartId : Int
deriving Repr

/-- Body and authorization header of a `POST /cart/add` request.
`productId = none` models an absent body field (JS falsiness of `0` is
handled in the handler); `authHeader = none` models a request presented
without a bearer credential. -/
structure CartAddReq where
  productId : Option Int := none
  count : Option Int := none
  authHeader : Option Token := none
deriving Repr

/-- Response of the add-to-cart handler: HTTP status, the `product` echoed
in the 200 body, and the store after the call. -/
structure CartAddRes where
  status : Nat
  product : Option Product
  store : Store
deriving Repr

/-- Cart rows of user `u` for product `p`, in store order. -/
def linesFor (cart : List CartLine) (u p : Int) : List CartLine :=
  cart.filter (fun l => l.userId == u && l.productId == p)

/-- At most one cart row exists per (userId, productId) pair. -/
def atMostOnePerPair (cart : List CartLine) : Prop :=
  ∀ u p, (linesFor cart u p).length ≤ 1

/-- `addToCart` translated branch for branch from the source: required
`productId` (JS-falsy `0` counts as missing), `authorization` header,
`jwt.verify`, user lookup by the token's `userid`, product lookup,
then find-or-create on the cart row for (user.id, product.id) —
an existing row's `count` becomes `existing.count + count`, otherwise a
fresh row with `count` is inserted.  A `jwt.verify` throw lands in the
handler's catch-all, hence status 500. -/
def addToCart (st : Store) (req : CartAddReq) : CartAddRes :=
  -- `count` below is the body's `count = 1` destructuring default,
  -- written `req.count.getD 1` at both use sites.
  match req.productId with
  | none => ⟨400, none, st⟩
  | some pid =>
    if pid == 0 then ⟨400, none, st⟩
    else
      match req.authHeader with
      | none => ⟨401, none, st⟩
      | some tok =>
        if !tok.wellFormed then ⟨500, none, st⟩
        else
          match st.users.find? (fun w => w.id == tok.userid) with
          | none => ⟨401, none, st⟩
          | some user =>
            match st.products.find? (fun p => p.id == pid) with
            | none => ⟨404, none, st⟩
            | some product =>
              match st.cart.find?
                  (fun l => l.userId == user.id && l.productId == product.id) with
              | some cartItem =>
                ⟨200, some product,
                  { st with cart := st.cart.map (fun l =>
                      if l.id == cartItem.id then
                        { l with count := cartItem.count + req.count.getD 1 }
                      else l) }⟩
              | none =>
                ⟨200, some product,
                  { st with
                      cart := st.cart ++
                        [{ id := st.nextCartId, userId := user.id,
                           productId := product.id,
                           count := req.count.getD 1 }],
                      nextCartId := st.nextCartId + 1 }⟩

/-- Path parameter and authorization header of a
`DELETE /cart/delete/:itemId` request. -/
structure CartDelReq where
  itemId : Option Int := none
  authHeader : Option Token := none
deriving Repr

/-- Response of the delete-cart handler. -/
structure CartDelRes where
  status : Nat
  store : Store
deriving Repr

/-- `deleteCart` translated from the source: required `itemId`,
`authorization` header, `jwt.verify`, user lookup, then `findFirst` on the
cart row with (userId, productId) = (user.id, itemId); 404 when absent,
otherwise the found row is deleted by its unique `id`. -/
def deleteCart (st : Store) (req : CartDelReq) : CartDelRes :=
  match req.itemId with
  | none => ⟨400, st⟩
  | some itemId =>
    match req.authHeader with
    | none => ⟨401, st⟩
    | some tok =>
      if !tok.wellFormed then ⟨500, st⟩
      else
        match st.users.find? (fun w => w.id == tok.userid) with
        | none => ⟨401, st⟩
        | some user =>
          match st.cart.find?
              (fun l => l.userId == user.id && l.productId == itemId) with
          | none => ⟨404, st⟩
          | some cartItem =>
            ⟨200, { st with cart := st.cart.eraseP (fun l => l.id == cartItem.id) }⟩

/-- Modelled from the spec: the `auth` middleware required by
`login.route.js` (`router.post('/cart/add', auth, addToCart)`) is not part
of the sources at hand.  Spec §4.1 (AuthGate): "given a bearer credential
string, returns a resolved user identifier or fails with Unauthorized.
Fails with Unauthorized when the credential is absent, malformed, or fails
signature/expiry verification." -/
def authGate : Option Token → Option Int
  | none => none
  | some t => if t.wellFormed then some t.userid else none

/-- The `/cart/add` route: the auth middleware answers 401 itself when the
credential is absent or fails verification; otherwise the request reaches
`addToCart`. -/
def cartAddEndpoint (st : Store) (req : CartAddReq) : CartAddRes :=
  match authGate req.authHeader with
  | none => ⟨401, none, st⟩
  | some _ => addToCart st req

/-- The `/cart/delete/:itemId` route, with the same middleware in front. -/
def cartDeleteEndpoint (st : Store) (req : CartDelReq) : CartDelRes :=
  match authGate req.authHeader with
  | none => ⟨401, st⟩
  | some _ => deleteCart st req

end Ecom

namespace Ecom

/-! Helper lemmas. -/

theorem optParam_some_of_ne (s : String) (hs : s ≠ "") :
    optParam (some s) = some s := by
  simp [optParam, hs]

theorem length_insertLe (le : Product → Product → Bool) (a : Product)
    (l : List Product) : (insertLe le a l).length = l.length + 1 := by
  induction l with
  | nil => rfl
  | cons b t ih =>
      simp only [insertLe]
      split
      · simp
      · simp [ih]

theorem length_sortProducts (sb so : String) (l : List Product) :
    (sortProducts sb so l).length = l.length := by
  induction l with
  | nil => rfl
  | cons b t ih =>
      simp only [sortProducts, List.foldr_cons] at *
      rw [length_insertLe, ih, List.length_cons]

/-- Claim C5: for every catalog listing with parsed page size at least 1,
the page metadata satisfies totalPages = ceil(totalItems / pageSize),
currentPage is the requested (parsed) page number, pageSize is echoed
back, and totalPages = 0 when totalItems = 0. -/
theorem getProducts_meta_contract (store : List Product) (q : RawQuery)
    (hps : 1 ≤ parseIntOr q.limit 10) :
    (getProducts store q).meta.totalPages =
      Int.ceil (((getProducts store q).meta.totalProducts : Rat) /
        ((getProducts store q).meta.pageSize : Rat)) ∧
    (getProducts store q).meta.currentPage = parseIntOr q.page 1 ∧
    (getProducts store q).meta.pageSize = parseIntOr q.limit 10 ∧
    ((getProducts store q).meta.totalProducts = 0 →
      (getProducts store q).meta.totalPages = 0) := by
  refine ⟨rfl, rfl, rfl, ?_⟩
  intro h0
  simp only [getProducts] at h0 ⊢
  rw [h0]
  simp

theorem getProducts_meta_contract_witness :
    1 ≤ parseIntOr (RawQuery.mk none none none none none none none none none
        none none none).limit 10 ∧
    (getProducts [] (RawQuery.mk none none none none none none none none none
        none none none)).meta.currentPage =
      parseIntOr (RawQuery.mk none none none none none none none none none
        none none none).page 1 :=
  ⟨by decide,
   (getProducts_meta_contract []
      (RawQuery.mk none none none none none none none none none
        none none none) (by decide)).2.1⟩

/-- Claim C6 as stated is false on the code: a zero limit is not passed
through to the query unchanged; `parseInt("0", 10) || 10` yields the
default 10 because JS `||` treats 0 as falsy. -/
theorem getProducts_zero_limit_uses_default :
    (getProducts [] { limit := some "0" }).meta.pageSize = 10 ∧
    (10 : Int) ≠ 0 := by
  constructor
  · rfl
  · decide

/-- Claim C6 amended: page and limit default to 1 and 10; a non-numeric or
absent value falls back to the default; a negative parsed value is passed
through unchanged; a zero parsed value also falls back to the default
(JS `||` treats 0 as falsy). -/
theorem getProducts_pagination_defaults (store : List Product) (q : RawQuery) :
    (getProducts store q).meta.currentPage = parseIntOr q.page 1 ∧
    (getProducts store q).meta.pageSize = parseIntOr q.limit 10 ∧
    parseIntOr none 1 = 1 ∧
    parseIntOr none 10 = 10 ∧
    (∀ s d, jsParseInt s = none → parseIntOr (some s) d = d) ∧
    (∀ s v d, jsParseInt s = some v → v ≠ 0 → parseIntOr (some s) d = v) ∧
    (∀ s d, jsParseInt s = some 0 → parseIntOr (some s) d = d) := by
  refine ⟨rfl, rfl, rfl, rfl, ?_, ?_, ?_⟩
  · intro s d h
    simp [parseIntOr, h]
  · intro s v d h hv
    simp [parseIntOr, h, hv]
  · intro s d h
    simp [parseIntOr, h]

theorem getProducts_pagination_defaults_witness :
    parseIntOr (some "abc") 1 = 1 ∧
    parseIntOr (some "-5") 10 = -5 ∧
    parseIntOr (some "0") 10 = 10 :=
  ⟨(getProducts_pagination_defaults [] {}).2.2.2.2.1 "abc" 1 (by decide),
   (getProducts_pagination_defaults [] {}).2.2.2.2.2.1 "-5" (-5) 10
     (by decide) (by decide),
   (getProducts_pagination_defaults [] {}).2.2.2.2.2.2 "0" 10 (by decide)⟩

/-- Claim C2 as stated is false on the code: for the request
`?categoryId=abc` the categoryId clause is not omitted from the `where`
object — it is added, carrying the `NaN` result of `parseInt`. -/
theorem getProducts_nonnumeric_filter_not_omitted :
    (buildWhere { categoryId := some "abc" }).categoryId = some none ∧
    (some (none : Option Int) ≠ (none : Option (Option Int))) := by
  constructor
  · rfl
  · decide

/-- Claim C2 amended: a non-empty value for a declared numeric filter that
parses to NaN is not dropped — the clause is included in the query
specification carrying NaN.  For categoryId, subcategoryId and brandId the
whole clause is NaN and the rest of the specification is the one built as
if the filter were absent.  For a price bound, the price clause carries
NaN in the bad bound's slot and keeps the other bound's own parse result
(mixed requests such as minPrice=abc&maxPrice=50 build {gte NaN, lte 50});
all non-price clauses are unaffected.  Any clause carrying NaN — equality
or price bound — matches no product. -/
theorem buildWhere_nonnumeric_filter_nan_clause (q : RawQuery) (s : String)
    (hs : s ≠ "") (hi : jsParseInt s = none)
    (hf : jsParseFloat s = JsFloat.nan) :
    (buildWhere { q with categoryId := some s } =
      { buildWhere { q with categoryId := none } with categoryId := some none }) ∧
    (buildWhere { q with subcategoryId := some s } =
      { buildWhere { q with subcategoryId := none } with
          subcategoryId := some none }) ∧
    (buildWhere { q with brandId := some s } =
      { buildWhere { q with brandId := none } with brandsId := some none }) ∧
    (buildWhere { q with minPrice := some s, maxPrice := none } =
      { buildWhere { q with minPrice := none, maxPrice := none } with
          price := some (.geOnly .nan) }) ∧
    (buildWhere { q with minPrice := none, maxPrice := some s } =
      { buildWhere { q with minPrice := none, maxPrice := none } with
          price := some (.leOnly .nan) }) ∧
    (∀ t, t ≠ "" →
      buildWhere { q with minPrice := some s, maxPrice := some t } =
        { buildWhere { q with minPrice := none, maxPrice := some t } with
            price := some (.both .nan (jsParseFloat t)) }) ∧
    (∀ t, t ≠ "" →
      buildWhere { q with minPrice := some t, maxPrice := some s } =
        { buildWhere { q with minPrice := some t, maxPrice := none } with
            price := some (.both (jsParseFloat t) .nan) }) ∧
    (∀ p, matchesWhere (buildWhere { q with categoryId := some s }) p = false) ∧
    (∀ p, matchesWhere (buildWhere { q with minPrice := some s }) p = false) ∧
    (∀ p, matchesWhere (buildWhere { q with maxPrice := some s }) p = false) := by
  have hop : optParam (some s) = some s := optParam_some_of_ne s hs
  have hopn : optParam none = none := rfl
  refine ⟨?_, ?_, ?_, ?_, ?_, ?_, ?_, ?_, ?_, ?_⟩
  · simp [buildWhere, hop, hopn, hi]
  · simp [buildWhere, hop, hopn, hi]
  · simp [buildWhere, hop, hopn, hi]
  · simp [buildWhere, hop, hopn, hf]
  · simp [buildWhere, hop, hopn, hf]
  · intro t ht
    have hopt : optParam (some t) = some t := optParam_some_of_ne t ht
    simp [buildWhere, hop, hopt, hf]
  · intro t ht
    have hopt : optParam (some t) = some t := optParam_some_of_ne t ht
    simp [buildWhere, hop, hopt, hf]
  · intro p
    have hcat : (buildWhere { q with categoryId := some s }).categoryId
        = some none := by
      simp [buildWhere, hop, hi]
    simp [matchesWhere, hcat, matchIntClause]
  · intro p
    cases hqm : optParam q.maxPrice with
    | none =>
        have hpr : (buildWhere { q with minPrice := some s }).price
            = some (.geOnly .nan) := by
          simp [buildWhere, hop, hqm, hf]
        simp [matchesWhere, hpr, matchPrice, matchLower]
    | some mx =>
        have hpr : (buildWhere { q with minPrice := some s }).price
            = some (.both .nan (jsParseFloat mx)) := by
          simp [buildWhere, hop, hqm, hf]
        simp [matchesWhere, hpr, matchPrice, matchLower]
  · intro p
    cases hqm : optParam q.minPrice with
    | none =>
        have hpr : (buildWhere { q with maxPrice := some s }).price
            = some (.leOnly .nan) := by
          simp [buildWhere, hop, hqm, hf]
        simp [matchesWhere, hpr, matchPrice, matchUpper]
    | some mn =>
        have hpr : (buildWhere { q with maxPrice := some s }).price
            = some (.both (jsParseFloat mn) .nan) := by
          simp [buildWhere, hop, hqm, hf]
        simp [matchesWhere, hpr, matchPrice, matchUpper]

theorem buildWhere_nonnumeric_filter_nan_clause_witness :
    (buildWhere { minPrice := some "abc", maxPrice := some "50" } =
      { buildWhere { maxPrice := some "50" } with
          price := some (.both .nan (jsParseFloat "50")) }) ∧
    (buildWhere { categoryId := some "abc" } =
      { buildWhere ({} : RawQuery) with categoryId := some none }) := by
  have hf : jsParseFloat "abc" = JsFloat.nan := by
    simp [jsParseFloat, jsParseFloatCore, isJsSpace]
  exact ⟨(buildWhere_nonnumeric_filter_nan_clause {} "abc" (by decide)
      (by decide) hf).2.2.2.2.2.1 "50" (by decide),
    (buildWhere_nonnumeric_filter_nan_clause {} "abc" (by decide)
      (by decide) hf).1⟩

/-- The sample request
`GET /products/all?categoryId=2&minPrice=10&maxPrice=50&page=2&limit=5`. -/
def q4 : RawQuery :=
  { page := some "2", limit := some "5", categoryId := some "2",
    minPrice := some "10", maxPrice := some "50" }

theorem buildWhere_q4 :
    buildWhere q4 =
      { categoryId := some (some 2), subcategoryId := none, brandsId := none,
        Colors := none, Size := none,
        price := some (.both (.num 10) (.num 50)), discount := none } := by
  have h10 : jsParseFloat "10" = .num 10 := by
    simp [jsParseFloat, jsParseFloatCore, jsParseExp, expVal, signApply,
      digitsVal, fracVal, isJsSpace]
  have h50 : jsParseFloat "50" = .num 50 := by
    simp [jsParseFloat, jsParseFloatCore, jsParseExp, expVal, signApply,
      digitsVal, fracVal, isJsSpace]
  have h2 : jsParseInt "2" = some 2 := by decide
  simp [buildWhere, q4, optParam, h10, h50, h2]

theorem matchesWhere_q4 (p : Product) :
    matchesWhere (buildWhere q4) p =
      (p.categoryId == 2 &&
        (decide ((10 : Rat) ≤ p.price) && decide (p.price ≤ 50))) := by
  rw [buildWhere_q4]
  simp [matchesWhere, matchIntClause, matchHasSome, matchPrice,
    matchLower, matchUpper, matchDiscount, Bool.and_assoc]

/-- Claim C4: against a catalog in which exactly 12 products match
categoryId = 2 and price within [10, 50], the sample request with page = 2
and limit = 5 returns exactly 5 products — the 6th through 10th matching
products in sort order (the window skips (page-1)*limit records) — and
meta {totalProducts 12, totalPages 3, currentPage 2, pageSize 5}, the
count and the page fetch being evaluated over the same filter. -/
theorem getProducts_sample_scenario (store : List Product)
    (h : (store.filter (fun p => p.categoryId == 2 &&
        (decide ((10 : Rat) ≤ p.price) && decide (p.price ≤ 50)))).length = 12) :
    (getProducts store q4).data.length = 5 ∧
    (getProducts store q4).data =
      ((sortProducts "price" "asc"
        (store.filter (matchesWhere (buildWhere q4)))).drop 5).take 5 ∧
    (getProducts store q4).meta =
      { totalProducts := 12, totalPages := 3, currentPage := 2, pageSize := 5 } := by
  have hfl : (store.filter (matchesWhere (buildWhere q4))).length = 12 := by
    rw [List.filter_congr (fun p _ => matchesWhere_q4 p)]
    exact h
  have hpn : parseIntOr q4.page 1 = 2 := by decide
  have hps : parseIntOr q4.limit 5 = 5 := by decide
  have hsb : q4.sortBy.getD "price" = "price" := rfl
  have hso : q4.sortOrder.getD "asc" = "asc" := rfl
  have hsl : (sortProducts "price" "asc"
      (store.filter (matchesWhere (buildWhere q4)))).length = 12 := by
    rw [length_sortProducts]; exact hfl
  refine ⟨?_, ?_, ?_⟩
  · show (intTake (parseIntOr q4.limit 10)
      (intDrop ((parseIntOr q4.page 1 - 1) * parseIntOr q4.limit 10)
        (sortProducts (q4.sortBy.getD "price") (q4.sortOrder.getD "asc")
          (store.filter (matchesWhere (buildWhere q4)))))).length = 5
    simp only [intTake, intDrop, List.length_take, List.length_drop, hsb, hso, hsl]
    decide
  · show intTake (parseIntOr q4.limit 10)
      (intDrop ((parseIntOr q4.page 1 - 1) * parseIntOr q4.limit 10)
        (sortProducts (q4.sortBy.getD "price") (q4.sortOrder.getD "asc")
          (store.filter (matchesWhere (buildWhere q4))))) =
      ((sortProducts "price" "asc"
        (store.filter (matchesWhere (buildWhere q4)))).drop 5).take 5
    rfl
  · show (PageMeta.mk (store.filter (matchesWhere (buildWhere q4))).length
      (Int.ceil (((store.filter (matchesWhere (buildWhere q4))).length : Rat) /
        ((parseIntOr q4.limit 10 : Int) : Rat)))
      (parseIntOr q4.page 1) (parseIntOr q4.limit 10)) =
      { totalProducts := 12, totalPages := 3, currentPage := 2, pageSize := 5 }
    have hps10 : parseIntOr q4.limit 10 = 5 := by decide
    have hceil : Int.ceil (((12 : Nat) : Rat) / (((5 : Int) : Rat))) = 3 := by
      rw [show (((12 : Nat)) : Rat) = (12 : Rat) by norm_num,
        show (((5 : Int)) : Rat) = (5 : Rat) by norm_num, Int.ceil_eq_iff]
      norm_num
    rw [hfl, hps10, hpn, hceil]

/-- Sample catalog row for the C4 scenario. -/
def mkProd (i : Int) (pr : Rat) (cat : Int) : Product :=
  { id := i, name := "p", price := pr, discount := 0, categoryId := cat,
    subcategoryId := 1, brandsId := 1, Colors := [], Size := [] }

/-- A catalog with exactly 12 products matching categoryId 2 and
price in [10, 50], plus one product outside the category and one priced
out of range. -/
def store12 : List Product :=
  [mkProd 1 10 2, mkProd 2 11 2, mkProd 3 12 2, mkProd 4 13 2,
   mkProd 5 14 2, mkProd 6 15 2, mkProd 7 16 2, mkProd 8 17 2,
   mkProd 9 18 2, mkProd 10 19 2, mkProd 11 20 2, mkProd 12 50 2,
   mkProd 13 15 3, mkProd 14 99 2]

theorem getProducts_sample_scenario_witness :
    (store12.filter (fun p => p.categoryId == 2 &&
        (decide ((10 : Rat) ≤ p.price) && decide (p.price ≤ 50)))).length = 12 ∧
    (getProducts store12 q4).meta =
      { totalProducts := 12, totalPages := 3, currentPage := 2, pageSize := 5 } ∧
    (getProducts store12 q4).data.length = 5 := by
  have h : (store12.filter (fun p => p.categoryId == 2 &&
      (decide ((10 : Rat) ≤ p.price) && decide (p.price ≤ 50)))).length = 12 := by
    decide
  exact ⟨h, (getProducts_sample_scenario store12 h).2.2,
    (getProducts_sample_scenario store12 h).1⟩

/-- Claim C8: a cart-add request presented without a bearer credential is
answered 401 by the route (the auth middleware rejects it before the
handler runs) and no store mutation of any kind occurs. -/
theorem cartAdd_no_credential_401 (st : Store) (req : CartAddReq)
    (h : req.authHeader = none) :
    cartAddEndpoint st req = ⟨401, none, st⟩ := by
  simp [cartAddEndpoint, authGate, h]

theorem cartAdd_no_credential_401_witness :
    cartAddEndpoint ⟨[⟨1, "u"⟩], [mkProd 7 10 2], [], 1⟩ { productId := some 7 } =
      ⟨401, none, ⟨[⟨1, "u"⟩], [mkProd 7 10 2], [], 1⟩⟩ :=
  cartAdd_no_credential_401 _ _ rfl

/-- Claim C9: when a cart-add request carries a verifiable token whose
embedded userid matches no stored user, the store is never mutated, and
every such request that passes body validation (a nonzero productId is
supplied — otherwise the handler's earlier productId check answers 400) is
answered 401: credential verification alone is not sufficient, the
resolved user must also exist in the user table. -/
theorem addToCart_unknown_user_401 (st : Store) (req : CartAddReq)
    (tok : Token)
    (ha : req.authHeader = some tok) (hwf : tok.wellFormed = true)
    (hu : st.users.find? (fun w => w.id == tok.userid) = none) :
    ((cartAddEndpoint st req).store = st) ∧
    (∀ pid, req.productId = some pid → pid ≠ 0 →
      cartAddEndpoint st req = ⟨401, none, st⟩) := by
  constructor
  · cases hp : req.productId with
    | none => simp [cartAddEndpoint, authGate, ha, hwf, addToCart, hp]
    | some pid =>
        by_cases h0 : (pid == 0) = true
        · simp [cartAddEndpoint, authGate, ha, hwf, addToCart, hp, h0]
        · simp at h0
          have hb : (pid == 0) = false := by simp [h0]
          simp [cartAddEndpoint, authGate, ha, hwf, addToCart, hp, hb, hu]
  · intro pid hp hp0
    have hb : (pid == 0) = false := by simp [hp0]
    simp [cartAddEndpoint, authGate, ha, hwf, addToCart, hp, hb, hu]

theorem addToCart_unknown_user_401_witness :
    cartAddEndpoint ⟨[⟨1, "u"⟩], [mkProd 7 10 2], [], 1⟩
        { productId := some 7, authHeader := some ⟨99, true⟩ } =
      ⟨401, none, ⟨[⟨1, "u"⟩], [mkProd 7 10 2], [], 1⟩⟩ :=
  (addToCart_unknown_user_401 _ _ ⟨99, true⟩ rfl rfl (by decide)).2 7 rfl
    (by decide)

/-- Claim C7: an authenticated add-to-cart request naming a product absent
from the catalog fails with 404 and leaves the whole store unchanged —
the existence check runs before any cart mutation. -/
theorem addToCart_missing_product_404 (st : Store) (req : CartAddReq)
    (pid : Int) (tok : Token) (user : User)
    (hp : req.productId = some pid) (hp0 : pid ≠ 0)
    (ha : req.authHeader = some tok) (hwf : tok.wellFormed = true)
    (hu : st.users.find? (fun w => w.id == tok.userid) = some user)
    (hprod : st.products.find? (fun p => p.id == pid) = none) :
    cartAddEndpoint st req = ⟨404, none, st⟩ := by
  have hb : (pid == 0) = false := by simp [hp0]
  simp [cartAddEndpoint, authGate, ha, hwf, addToCart, hp, hb, hu, hprod]

theorem addToCart_missing_product_404_witness :
    cartAddEndpoint ⟨[⟨1, "u"⟩], [mkProd 7 10 2], [⟨1, 1, 7, 2⟩], 2⟩
        { productId := some 8, authHeader := some ⟨1, true⟩ } =
      ⟨404, none, ⟨[⟨1, "u"⟩], [mkProd 7 10 2], [⟨1, 1, 7, 2⟩], 2⟩⟩ :=
  addToCart_missing_product_404 _ _ 8 ⟨1, true⟩ ⟨1, "u"⟩ rfl (by decide) rfl rfl
    (by decide) (by decide)

/-- Claim C10: a successful addToCart that finds an existing cart row for
(userId, productId) modifies only that row's quantity: the row keeps its
id, userId and productId (it becomes the same record with
count = existing count + requested count), every cart row with a
different id is untouched in both directions, the cart's size is
unchanged, the user table, catalog and next fresh id are unchanged, and
the product echoed in the response is the unchanged catalog record. -/
theorem addToCart_update_frame (st : Store) (req : CartAddReq)
    (pid : Int) (tok : Token) (user : User) (product : Product)
    (cartItem : CartLine)
    (hp : req.productId = some pid) (hp0 : pid ≠ 0)
    (ha : req.authHeader = some tok) (hwf : tok.wellFormed = true)
    (hu : st.users.find? (fun w => w.id == tok.userid) = some user)
    (hprod : st.products.find? (fun p => p.id == pid) = some product)
    (hline : st.cart.find?
      (fun l => l.userId == user.id && l.productId == product.id)
      = some cartItem) :
    (cartAddEndpoint st req).status = 200 ∧
    (cartAddEndpoint st req).product = some product ∧
    (cartAddEndpoint st req).store.products = st.products ∧
    (cartAddEndpoint st req).store.users = st.users ∧
    (cartAddEndpoint st req).store.nextCartId = st.nextCartId ∧
    (cartAddEndpoint st req).store.cart.length = st.cart.length ∧
    (∀ l ∈ st.cart, l.id ≠ cartItem.id →
      l ∈ (cartAddEndpoint st req).store.cart) ∧
    (∀ l ∈ (cartAddEndpoint st req).store.cart, l.id ≠ cartItem.id →
      l ∈ st.cart) ∧
    ({ cartItem with count := cartItem.count + req.count.getD 1 } : CartLine)
      ∈ (cartAddEndpoint st req).store.cart := by
  have hb : (pid == 0) = false := by simp [hp0]
  have hres : cartAddEndpoint st req =
      ⟨200, some product,
        { st with cart := st.cart.map (fun l =>
            if l.id == cartItem.id then
              { l with count := cartItem.count + req.count.getD 1 }
            else l) }⟩ := by
    simp [cartAddEndpoint, authGate, ha, hwf, addToCart, hp, hb, hu, hprod, hline]
  rw [hres]
  refine ⟨rfl, rfl, rfl, rfl, rfl, List.length_map _ _, ?_, ?_, ?_⟩
  · intro l hl hid
    refine List.mem_map.mpr ⟨l, hl, ?_⟩
    simp [hid]
  · intro l hl hid
    obtain ⟨a, haa, hfa⟩ := List.mem_map.mp hl
    by_cases hcase : a.id = cartItem.id
    · exfalso
      apply hid
      rw [← hfa]
      simp [hcase]
    · rw [← hfa]
      simpa [hcase] using haa
  · refine List.mem_map.mpr ⟨cartItem, List.mem_of_find?_eq_some hline, ?_⟩
    simp

theorem addToCart_update_frame_witness :
    ((⟨1, 1, 7, 5⟩ : CartLine) ∈
      (cartAddEndpoint ⟨[⟨1, "u"⟩], [mkProd 7 10 2], [⟨1, 1, 7, 2⟩, ⟨2, 1, 9, 1⟩], 3⟩
        { productId := some 7, count := some 3,
          authHeader := some ⟨1, true⟩ }).store.cart) ∧
    (cartAddEndpoint ⟨[⟨1, "u"⟩], [mkProd 7 10 2], [⟨1, 1, 7, 2⟩, ⟨2, 1, 9, 1⟩], 3⟩
        { productId := some 7, count := some 3,
          authHeader := some ⟨1, true⟩ }).store.cart.length = 2 := by
  have h := addToCart_update_frame
    ⟨[⟨1, "u"⟩], [mkProd 7 10 2], [⟨1, 1, 7, 2⟩, ⟨2, 1, 9, 1⟩], 3⟩
    { productId := some 7, count := some 3, authHeader := some ⟨1, true⟩ }
    7 ⟨1, true⟩ ⟨1, "u"⟩ (mkProd 7 10 2) ⟨1, 1, 7, 2⟩
    rfl (by decide) rfl rfl (by decide) (by decide) (by decide)
  exact ⟨h.2.2.2.2.2.2.2.2, h.2.2.2.2.2.1⟩

theorem linesFor_append (c1 c2 : List CartLine) (u p : Int) :
    linesFor (c1 ++ c2) u p = linesFor c1 u p ++ linesFor c2 u p :=
  List.filter_append _ _

theorem linesFor_map (cart : List CartLine) (u p : Int)
    (f : CartLine → CartLine)
    (hf : ∀ l, (f l).userId = l.userId ∧ (f l).productId = l.productId) :
    linesFor (cart.map f) u p = (linesFor cart u p).map f := by
  induction cart with
  | nil => rfl
  | cons a t ih =>
      have hpa : ((f a).userId == u && (f a).productId == p) =
          (a.userId == u && a.productId == p) := by
        rw [(hf a).1, (hf a).2]
      simp only [List.map_cons, linesFor, List.filter_cons] at *
      rw [hpa]
      split
      · simp [ih]
      · exact ih

theorem atMostOnePerPair_map (cart : List CartLine)
    (f : CartLine → CartLine)
    (hf : ∀ l, (f l).userId = l.userId ∧ (f l).productId = l.productId)
    (h : atMostOnePerPair cart) : atMostOnePerPair (cart.map f) := by
  intro u p
  rw [linesFor_map cart u p f hf, List.length_map]
  exact h u p

theorem atMostOnePerPair_append_new (cart : List CartLine) (nl : CartLine)
    (h : atMostOnePerPair cart)
    (hnew : linesFor cart nl.userId nl.productId = []) :
    atMostOnePerPair (cart ++ [nl]) := by
  intro u p
  rw [linesFor_append]
  by_cases hup : (nl.userId == u && nl.productId == p) = true
  · have hu : nl.userId = u := by
      have := (Bool.and_eq_true _ _).mp hup
      exact eq_of_beq this.1
    have hp : nl.productId = p := by
      have := (Bool.and_eq_true _ _).mp hup
      exact eq_of_beq this.2
    rw [← hu, ← hp, hnew]
    simp [linesFor, List.filter]
  · have : linesFor [nl] u p = [] := by
      simp only [linesFor, List.filter, hup]
    rw [this, List.append_nil]
    exact h u p

/-- Claim C1: the at-most-one-cart-row-per-(userId, productId) invariant is
preserved by every sequential pass through the cart-add route, and two
successive authenticated adds of product P for user U with counts c1 and
c2, starting from a cart with no row for (U, P), leave exactly one row for
(U, P), whose quantity is c1 + c2 (the first add creates the row with
quantity c1, the second replaces its quantity by c1 + c2). -/
theorem addToCart_pair_uniqueness_accumulation :
    (∀ (st : Store) (req : CartAddReq), atMostOnePerPair st.cart →
      atMostOnePerPair (cartAddEndpoint st req).store.cart) ∧
    (∀ (st : Store) (pid c1 c2 : Int) (tok : Token) (user : User)
      (product : Product),
      pid ≠ 0 → tok.wellFormed = true →
      st.users.find? (fun w => w.id == tok.userid) = some user →
      st.products.find? (fun p => p.id == pid) = some product →
      linesFor st.cart user.id pid = [] →
      (cartAddEndpoint st ⟨some pid, some c1, some tok⟩).status = 200 ∧
      (cartAddEndpoint
        (cartAddEndpoint st ⟨some pid, some c1, some tok⟩).store
        ⟨some pid, some c2, some tok⟩).status = 200 ∧
      linesFor (cartAddEndpoint
          (cartAddEndpoint st ⟨some pid, some c1, some tok⟩).store
          ⟨some pid, some c2, some tok⟩).store.cart user.id pid =
        [⟨st.nextCartId, user.id, pid, c1 + c2⟩]) := by
  constructor
  · intro st req hinv
    unfold cartAddEndpoint
    split
    · exact hinv
    · unfold addToCart
      split
      · exact hinv
      · split
        · exact hinv
        · split
          · exact hinv
          · split
            · exact hinv
            · split
              · exact hinv
              · split
                · exact hinv
                · split
                  · -- update branch: only counts change
                    rename_i cartItem _
                    apply atMostOnePerPair_map _ _ _ hinv
                    intro l
                    constructor
                    · split <;> rfl
                    · split <;> rfl
                  · -- create branch: no row for the pair existed
                    rename_i hfind
                    apply atMostOnePerPair_append_new _ _ hinv
                    simp only [linesFor]
                    rw [List.filter_eq_nil_iff]
                    intro l hl
                    exact List.find?_eq_none.mp hfind l hl
  · intro st pid c1 c2 tok user product hp0 hwf hu hprod hnone
    have hpid : product.id = pid := by
      have := List.find?_some hprod
      simpa using this
    subst hpid
    have hb : (product.id == 0) = false := by simp [hp0]
    have hfind1 : st.cart.find?
        (fun l => l.userId == user.id && l.productId == product.id) = none := by
      rw [List.find?_eq_none]
      intro l hl
      exact (List.filter_eq_nil_iff.mp hnone) l hl
    have hr1 : cartAddEndpoint st ⟨some product.id, some c1, some tok⟩ =
        ⟨200, some product,
          { st with
              cart := st.cart ++
                [⟨st.nextCartId, user.id, product.id, c1⟩],
              nextCartId := st.nextCartId + 1 }⟩ := by
      simp [cartAddEndpoint, authGate, hwf, addToCart, hb, hu, hprod, hfind1]
    have hprednew : ((⟨st.nextCartId, user.id, product.id, c1⟩ : CartLine).userId
        == user.id &&
        (⟨st.nextCartId, user.id, product.id, c1⟩ : CartLine).productId
        == product.id) = true := by simp
    have hfind2 : List.find?
        (fun l : CartLine => l.userId == user.id && l.productId == product.id)
        (st.cart ++ [(⟨st.nextCartId, user.id, product.id, c1⟩ : CartLine)]) =
        some (⟨st.nextCartId, user.id, product.id, c1⟩ : CartLine) := by
      rw [List.find?_append, hfind1]
      simp [List.find?]
    have hr2 : cartAddEndpoint
        { st with
            cart := st.cart ++ [⟨st.nextCartId, user.id, product.id, c1⟩],
            nextCartId := st.nextCartId + 1 }
        ⟨some product.id, some c2, some tok⟩ =
        ⟨200, some product,
          { st with
              cart := List.map (fun l : CartLine =>
                  if l.id == st.nextCartId then
                    { l with count := c1 + c2 } else l)
                (st.cart ++ [(⟨st.nextCartId, user.id, product.id, c1⟩ : CartLine)]),
              nextCartId := st.nextCartId + 1 }⟩ := by
      simp [cartAddEndpoint, authGate, hwf, addToCart, hb, hu, hprod, hfind2]
    rw [hr1, hr2]
    refine ⟨rfl, rfl, ?_⟩
    have hpres : ∀ l : CartLine,
        ((fun l : CartLine => if l.id == st.nextCartId then
          { l with count := c1 + c2 } else l) l).userId = l.userId ∧
        ((fun l : CartLine => if l.id == st.nextCartId then
          { l with count := c1 + c2 } else l) l).productId = l.productId := by
      intro l
      constructor <;> (dsimp only; split <;> rfl)
    rw [linesFor_map _ _ _ _ hpres, linesFor_append, hnone]
    simp [linesFor, List.filter, hprednew]

theorem addToCart_pair_uniqueness_accumulation_witness :
    atMostOnePerPair ((cartAddEndpoint
      ⟨[⟨1, "u"⟩], [mkProd 7 10 2], [], 1⟩
      { productId := some 7, count := some 2,
        authHeader := some ⟨1, true⟩ }).store.cart) ∧
    linesFor ((cartAddEndpoint
      (cartAddEndpoint ⟨[⟨1, "u"⟩], [mkProd 7 10 2], [], 1⟩
        ⟨some 7, some 2, some ⟨1, true⟩⟩).store
      ⟨some 7, some 3, some ⟨1, true⟩⟩).store.cart) 1 7 =
      [⟨1, 1, 7, 5⟩] := by
  constructor
  · exact addToCart_pair_uniqueness_accumulation.1
      ⟨[⟨1, "u"⟩], [mkProd 7 10 2], [], 1⟩
      { productId := some 7, count := some 2, authHeader := some ⟨1, true⟩ }
      (fun u p => by simp [linesFor])
  · exact (addToCart_pair_uniqueness_accumulation.2
      ⟨[⟨1, "u"⟩], [mkProd 7 10 2], [], 1⟩ 7 2 3 ⟨1, true⟩ ⟨1, "u"⟩
      (mkProd 7 10 2) (by decide) rfl (by decide) (by decide) rfl).2.2

/-- Claim C3: an authenticated `deleteCart(userId, itemId)` locates the
cart row with (userId, productId) = (user.id, itemId) and deletes exactly
that row (one row fewer, every row with a different id kept, nothing added,
the located row gone, user table and catalog untouched), answering 200;
when no such row exists it answers 404 and the store is completely
unchanged.  Row ids are assumed pairwise distinct, as the store's primary
key guarantees. -/
theorem deleteCart_locates_and_deletes (st : Store) (req : CartDelReq)
    (itemId : Int) (tok : Token) (user : User)
    (hitem : req.itemId = some itemId)
    (ha : req.authHeader = some tok) (hwf : tok.wellFormed = true)
    (hu : st.users.find? (fun w => w.id == tok.userid) = some user)
    (hids : (st.cart.map CartLine.id).Nodup) :
    (∀ cartItem, st.cart.find?
        (fun l => l.userId == user.id && l.productId == itemId)
        = some cartItem →
      (cartDeleteEndpoint st req).status = 200 ∧
      cartItem ∈ st.cart ∧
      cartItem.userId = user.id ∧ cartItem.productId = itemId ∧
      (cartDeleteEndpoint st req).store.cart.length + 1 = st.cart.length ∧
      (∀ l ∈ st.cart, l.id ≠ cartItem.id →
        l ∈ (cartDeleteEndpoint st req).store.cart) ∧
      (∀ l ∈ (cartDeleteEndpoint st req).store.cart, l ∈ st.cart) ∧
      cartItem ∉ (cartDeleteEndpoint st req).store.cart ∧
      (cartDeleteEndpoint st req).store.users = st.users ∧
      (cartDeleteEndpoint st req).store.products = st.products) ∧
    (st.cart.find? (fun l => l.userId == user.id && l.productId == itemId)
        = none →
      cartDeleteEndpoint st req = ⟨404, st⟩) := by
  constructor
  · intro cartItem hfind
    have hres : cartDeleteEndpoint st req =
        ⟨200, { st with
          cart := st.cart.eraseP (fun l => l.id == cartItem.id) }⟩ := by
      simp [cartDeleteEndpoint, authGate, ha, hwf, deleteCart, hitem, hu, hfind]
    have hmem : cartItem ∈ st.cart := List.mem_of_find?_eq_some hfind
    have hpred := List.find?_some hfind
    have huid : cartItem.userId = user.id := by
      have := (Bool.and_eq_true _ _).mp hpred
      exact eq_of_beq this.1
    have hpid : cartItem.productId = itemId := by
      have := (Bool.and_eq_true _ _).mp hpred
      exact eq_of_beq this.2
    have hp : (fun l : CartLine => l.id == cartItem.id) cartItem = true := by
      simp
    obtain ⟨a, l1, l2, hnl1, hpa, hsplit, herase⟩ :=
      @List.exists_of_eraseP CartLine (fun l => l.id == cartItem.id)
        st.cart cartItem hmem hp
    have haid : a.id = cartItem.id := eq_of_beq hpa
    have hcart : (cartDeleteEndpoint st req).store.cart = l1 ++ l2 := by
      rw [hres]
      exact herase
    have hidsplit : ((l1 ++ a :: l2).map CartLine.id).Nodup := by
      rw [← hsplit]; exact hids
    have hanotin : a.id ∉ l1.map CartLine.id ∧ a.id ∉ l2.map CartLine.id := by
      rw [List.map_append, List.map_cons, List.nodup_append] at hidsplit
      obtain ⟨h1, h2, hdisj⟩ := hidsplit
      refine ⟨fun hin => ?_, (List.nodup_cons.mp h2).1⟩
      exact hdisj hin (List.mem_cons_self _ _)
    refine ⟨by rw [hres], hmem, huid, hpid, ?_, ?_, ?_, ?_, by rw [hres], by rw [hres]⟩
    · rw [hcart, hsplit]
      simp [List.length_append]
      omega
    · intro l hl hlid
      rw [hcart]
      rw [hsplit] at hl
      rcases List.mem_append.mp hl with h1 | h1
      · exact List.mem_append.mpr (Or.inl h1)
      · rcases List.mem_cons.mp h1 with h2 | h2
        · exact absurd (h2 ▸ haid) hlid
        · exact List.mem_append.mpr (Or.inr h2)
    · intro l hl
      rw [hcart] at hl
      rw [hsplit]
      rcases List.mem_append.mp hl with h1 | h1
      · exact List.mem_append.mpr (Or.inl h1)
      · exact List.mem_append.mpr (Or.inr (List.mem_cons_of_mem _ h1))
    · rw [hcart]
      intro hin
      rcases List.mem_append.mp hin with h1 | h1
      · exact hanotin.1 (haid ▸ List.mem_map_of_mem CartLine.id h1)
      · exact hanotin.2 (haid ▸ List.mem_map_of_mem CartLine.id h1)
  · intro hfind
    simp [cartDeleteEndpoint, authGate, ha, hwf, deleteCart, hitem, hu, hfind]

theorem deleteCart_locates_and_deletes_witness :
    (cartDeleteEndpoint ⟨[⟨1, "u"⟩], [], [⟨5, 1, 7, 2⟩, ⟨6, 1, 9, 1⟩], 7⟩
      ⟨some 7, some ⟨1, true⟩⟩).status = 200 ∧
    (cartDeleteEndpoint ⟨[⟨1, "u"⟩], [], [⟨5, 1, 7, 2⟩, ⟨6, 1, 9, 1⟩], 7⟩
      ⟨some 7, some ⟨1, true⟩⟩).store.cart.length + 1 = 2 ∧
    cartDeleteEndpoint ⟨[⟨1, "u"⟩], [], [⟨5, 1, 7, 2⟩, ⟨6, 1, 9, 1⟩], 7⟩
      ⟨some 8, some ⟨1, true⟩⟩ =
      ⟨404, ⟨[⟨1, "u"⟩], [], [⟨5, 1, 7, 2⟩, ⟨6, 1, 9, 1⟩], 7⟩⟩ := by
  have h1 := (deleteCart_locates_and_deletes
    ⟨[⟨1, "u"⟩], [], [⟨5, 1, 7, 2⟩, ⟨6, 1, 9, 1⟩], 7⟩
    ⟨some 7, some ⟨1, true⟩⟩ 7 ⟨1, true⟩ ⟨1, "u"⟩
    rfl rfl rfl (by decide) (by decide)).1 ⟨5, 1, 7, 2⟩ (by decide)
  have h2 := (deleteCart_locates_and_deletes
    ⟨[⟨1, "u"⟩], [], [⟨5, 1, 7, 2⟩, ⟨6, 1, 9, 1⟩], 7⟩
    ⟨some 8, some ⟨1, true⟩⟩ 8 ⟨1, true⟩ ⟨1, "u"⟩
    rfl rfl rfl (by decide) (by decide)).2 (by decide)
  exact ⟨h1.1, h1.2.2.2.2.1, h2⟩

end Ecom

namespace Ecom

example : jsParseInt "2" = some 2 := by decide
example : jsParseInt "abc" = none := by decide
example : jsParseInt "0" = some 0 := by decide
example : jsParseFloat "10" = .num 10 := by
  simp [jsParseFloat, jsParseFloatCore, jsParseExp, expVal, signApply,
    digitsVal, fracVal, isJsSpace]
example : jsParseFloat "2.5" = .num (5/2) := by
  simp [jsParseFloat, jsParseFloatCore, jsParseExp, expVal, signApply,
    digitsVal, fracVal, isJsSpace]
  norm_num
example : jsParseFloat "abc" = .nan := by
  simp [jsParseFloat, jsParseFloatCore, isJsSpace]
example : jsParseFloat "Infinity" = .inf false := by
  simp [jsParseFloat, jsParseFloatCore, isJsSpace]
example : jsParseFloat "-Infinity" = .inf true := by
  simp [jsParseFloat, jsParseFloatCore, isJsSpace]
example : jsParseFloat "1e3" = .num 1000 := by
  simp [jsParseFloat, jsParseFloatCore, jsParseExp, expVal, signApply,
    digitsVal, fracVal, isJsSpace]
  norm_num
example : jsParseFloat ".5" = .num (1/2) := by
  simp [jsParseFloat, jsParseFloatCore, jsParseExp, expVal, signApply,
    digitsVal, fracVal, isJsSpace]
  norm_num
example : parseIntOr (some "0") 1 = 1 := by decide
example : parseIntOr (some "-3") 1 = -3 := by decide
example : parseIntOr none 10 = 10 := by decide
example : Int.ceil ((12 : Rat) / (5 : Rat)) = 3 := by
  rw [Int.ceil_eq_iff] ; norm_num

end Ecom
